import Mathlib

/-!
Verification of the two-agent pipeline (search + summarizer).

Shallow embedding of `src/agents/search.py` and `src/agents/summarizer.py`.
Python strings are modelled as `List Char`; a Python dict value that may be
`None` is modelled by `PyVal`; a key that may be absent is an `Option`.
-/

/-- A Python value stored under a provider-record key: either `None` or a
string. -/
inductive PyVal where
  | null
  | str (s : List Char)
deriving DecidableEq

/-- A raw record yielded by the provider iterator (`ddgs.text(...)`).
Each of the three keys the code reads (`title`, `body`, `href`) may be
absent (`Option.none`) or present with a possibly-null value. -/
structure ProviderRecord where
  title : Option PyVal
  body  : Option PyVal
  href  : Option PyVal
deriving DecidableEq

/-- Python `dict.get(key, default)`: the default is used only when the key
is absent; a present value (even `None` or `""`) is returned as is. -/
def dictGet (v : Option PyVal) (d : PyVal) : PyVal :=
  v.getD d

/-- The normalized record built in `SearchAgent._execute_search`
(src/agents/search.py lines 99-106). -/
structure SearchResult where
  rank : Nat
  title : PyVal
  snippet : PyVal
  url : PyVal
  source : List Char
deriving DecidableEq

/-- One loop iteration of `_execute_search`: `rank` is `idx + 1`, the three
text fields come from `result.get` with the fixed defaults, `source` is the
fixed provider tag. -/
def mkSearchResult (idx : Nat) (r : ProviderRecord) : SearchResult :=
  { rank := idx + 1
    title := dictGet r.title (PyVal.str "No title".data)
    snippet := dictGet r.body (PyVal.str "No description".data)
    url := dictGet r.href (PyVal.str [])
    source := "duckduckgo".data }

/-- The `for idx, result in enumerate(search_results)` loop of
`_execute_search`, appending one normalized record per provider record.
The `time.sleep(0.5)` pacing delay has no effect on the returned data and
is not modelled. -/
def rankResults : Nat → List ProviderRecord → List SearchResult
  | _, [] => []
  | idx, r :: rs => mkSearchResult idx r :: rankResults (idx + 1) rs

/-- What one call to the provider iterator delivers: the records yielded
before the iterator finished, and `some err` when the iteration (or the
`ddgs.text` call itself) raised after delivering those records, `Option.none`
when it completed normally. -/
structure ProviderResponse where
  records : List ProviderRecord
  error : Option (List Char)
deriving DecidableEq

/-- A provider: `ddgs.text(query, max_results=m)` as a function of the
query and of the `max_results` argument the agent passes. -/
def Provider : Type := List Char → Int → ProviderResponse

/-- `SearchAgent._execute_search` (src/agents/search.py lines 80-113).
The body wraps the provider iteration in `try/except Exception`: any
provider error is caught locally, printed, and the records accumulated so
far are returned.  Hence the function is total and ignores the error part
of the response: it returns exactly the normalized records the provider
delivered before failing (all of them when it did not fail). -/
def execute_search (query : List Char) (max_results : Int)
    (provider : Provider) : List SearchResult :=
  rankResults 0 (provider query max_results).records

/-- Payload of one `_log_action` call, per action tag. -/
inductive LogData where
  | searchStarted (query : List Char)
  | searchCompleted (query : List Char) (result_count : Nat) (success : Bool)
  | searchFailed (query : List Char) (error : List Char)
  | summarizationStarted (source_count : Nat)
  | summarizationCompleted (source_count : Nat) (key_points : Nat)
deriving DecidableEq

/-- One event handed to `knowledge_graph.log_agent_action`. -/
structure LogEvent where
  agent : List Char
  action : List Char
  data : LogData
deriving DecidableEq

/-- Whether an event is the `search_failed` event. -/
def isFailureEvent (e : LogEvent) : Bool :=
  match e.data with
  | LogData.searchFailed _ _ => true
  | _ => false

/-- Line 63 of src/agents/search.py: `max_results = max_results or
self.max_results`.  Python `or` keeps the left operand iff it is truthy;
`None` is absent (`Option.none`) and the int `0` is falsy, every other int
is truthy. -/
def effectiveMaxResults (caller : Option Int) (instanceDefault : Int) : Int :=
  match caller with
  | Option.none => instanceDefault
  | some m => if m = 0 then instanceDefault else m

/-- `self.max_results` as set in `SearchAgent.__init__`. -/
def searchAgentDefaultMax : Int := 5

/-- `SearchAgent.search` (src/agents/search.py lines 43-79): resolve
`max_results`, log `search_started`, run `_execute_search`, log
`search_completed` with `success: True`, return the results.  Because
`_execute_search` catches every provider exception internally, the
`except` branch of `search` (which would log `search_failed`) can only be
reached if the logging collaborator itself raises; with logging modelled
as pure event emission that branch is unreachable. -/
def search (query : List Char) (max_results : Option Int)
    (provider : Provider) : List SearchResult × List LogEvent :=
  let m := effectiveMaxResults max_results searchAgentDefaultMax
  let results := execute_search query m provider
  (results,
    [ ⟨"SearchAgent".data, "search_started".data, LogData.searchStarted query⟩,
      ⟨"SearchAgent".data, "search_completed".data,
        LogData.searchCompleted query results.length true⟩ ])

/-!  Summarizer component (src/agents/summarizer.py). -/

/-- An input record to the summarizer: a dict read through `.get` at the
keys `title`, `snippet`, `url`; each key may be absent. -/
structure SumRecord where
  title : Option (List Char)
  snippet : Option (List Char)
  url : Option (List Char)
deriving DecidableEq

/-- One element of `key_findings` (src/agents/summarizer.py lines 89-93):
the snippet is sliced to its first 200 characters, missing keys fall back
to the documented defaults. -/
structure Finding where
  point : List Char
  source : List Char
  url : List Char
deriving DecidableEq

/-- One element of `sources` (lines 96-99). -/
structure SourceRef where
  title : List Char
  url : List Char
deriving DecidableEq

/-- The dict returned by `_synthesize_information` (lines 101-106). -/
structure Summary where
  key_findings : List Finding
  source_count : Nat
  sources : List SourceRef
  synthesis_method : List Char
deriving DecidableEq

/-- Lines 89-93: `{"point": result.get("snippet", "")[:200], "source":
result.get("title", "Unknown"), "url": result.get("url", "")}`. -/
def mkFinding (r : SumRecord) : Finding :=
  { point := (r.snippet.getD []).take 200
    source := r.title.getD "Unknown".data
    url := r.url.getD [] }

/-- Line 95: `if result.get("url")` — truthy iff the key is present with a
non-empty string. -/
def urlTruthy (r : SumRecord) : Bool :=
  !(r.url.getD []).isEmpty

/-- Lines 96-99: `{"title": result.get("title", "Unknown"), "url":
result.get("url", "")}`. -/
def mkSourceRef (r : SumRecord) : SourceRef :=
  { title := r.title.getD "Unknown".data
    url := r.url.getD [] }

/-- The `for result in all_results[:10]` loop (lines 88-99): every element
contributes a finding, and additionally a source ref when its url is
truthy, both in input order. -/
def synthLoop : List SumRecord → List Finding × List SourceRef
  | [] => ([], [])
  | r :: rs =>
    let rest := synthLoop rs
    (mkFinding r :: rest.1,
      if urlTruthy r then mkSourceRef r :: rest.2 else rest.2)

/-- `SummarizerAgent._synthesize_information` (src/agents/summarizer.py
lines 69-108): flatten the batches in order, run the loop over the first
10 flattened records, cap `sources` at 15, report the full flattened
length as `source_count`. -/
def synthesize_information (search_results : List (List SumRecord)) : Summary :=
  let all_results := search_results.flatten
  let fs := synthLoop (all_results.take 10)
  { key_findings := fs.1
    source_count := all_results.length
    sources := fs.2.take 15
    synthesis_method := "heuristic_extraction".data }

/-- `SummarizerAgent.summarize` (lines 35-67): log `summarization_started`
(its `source_count` field is the number of input batches), synthesize, log
`summarization_completed`, return the summary. -/
def summarize (search_results : List (List SumRecord)) :
    Summary × List LogEvent :=
  let summary := synthesize_information search_results
  (summary,
    [ ⟨"SummarizerAgent".data, "summarization_started".data,
        LogData.summarizationStarted search_results.length⟩,
      ⟨"SummarizerAgent".data, "summarization_completed".data,
        LogData.summarizationCompleted search_results.length
          summary.key_findings.length⟩ ])

/-! ## Helper lemmas -/

/-- The findings component of the loop maps `mkFinding` over its input. -/
theorem synthLoop_fst (l : List SumRecord) :
    (synthLoop l).1 = l.map mkFinding := by
  induction l with
  | nil => rfl
  | cons r rs ih => simp [synthLoop, ih]

/-- The sources component of the loop keeps exactly the records with a
truthy url, in order. -/
theorem synthLoop_snd (l : List SumRecord) :
    (synthLoop l).2 = (l.filter urlTruthy).map mkSourceRef := by
  induction l with
  | nil => rfl
  | cons r rs ih =>
    simp only [synthLoop, List.filter]
    cases h : urlTruthy r <;> simp [h, ih]

/-- The ranking loop yields one result per provider record. -/
theorem rankResults_length (n : Nat) (l : List ProviderRecord) :
    (rankResults n l).length = l.length := by
  induction l generalizing n with
  | nil => rfl
  | cons r rs ih => simp [rankResults, ih]

/-- The ranks assigned by the loop starting at index `n` are the
consecutive integers `n+1, n+2, ...`. -/
theorem rankResults_map_rank (l : List ProviderRecord) (n : Nat) :
    (rankResults n l).map SearchResult.rank = List.range' (n + 1) l.length := by
  induction l generalizing n with
  | nil => rfl
  | cons r rs ih =>
    simp [rankResults, List.range'_succ, ih, mkSearchResult]

/-- `key_findings` is `mkFinding` mapped over the first 10 flattened
records. -/
theorem synthesize_key_findings_eq (batches : List (List SumRecord)) :
    (synthesize_information batches).key_findings
      = (batches.flatten.take 10).map mkFinding := by
  simp [synthesize_information, synthLoop_fst]

/-- `sources` is `mkSourceRef` mapped over the truthy-url records of the
first 10 flattened records; the `[:15]` slice never removes anything
because at most 10 candidates exist. -/
theorem synthesize_sources_eq (batches : List (List SumRecord)) :
    (synthesize_information batches).sources
      = ((batches.flatten.take 10).filter urlTruthy).map mkSourceRef := by
  have hlen :
      (((batches.flatten.take 10).filter urlTruthy).map mkSourceRef).length ≤ 10 := by
    rw [List.length_map]
    calc ((batches.flatten.take 10).filter urlTruthy).length
        ≤ (batches.flatten.take 10).length := List.length_filter_le _ _
      _ ≤ 10 := by rw [List.length_take]; omega
  simp only [synthesize_information, synthLoop_snd]
  exact List.take_of_length_le (le_trans hlen (by omega))

/-! ## Concrete inputs -/

/-- A provider record with all three keys present as plain strings. -/
def provRec (t b h : List Char) : ProviderRecord :=
  ⟨some (PyVal.str t), some (PyVal.str b), some (PyVal.str h)⟩

/-- A provider that ignores the `max_results` hint and yields 7 records. -/
def overYieldingProvider : Provider :=
  fun _ _ => ⟨List.replicate 7 (provRec "t".data "b".data "u".data), Option.none⟩

/-- A provider whose iterator delivers one record and then raises. -/
def failingProvider : Provider :=
  fun _ _ => ⟨[provRec "t".data "b".data "u".data], some "boom".data⟩

/-- Summarizer input: title "A", a 300-character snippet, url "u1". -/
def recA : SumRecord := ⟨some "A".data, some (List.replicate 300 'x'), some "u1".data⟩

/-- Summarizer input: title "B", snippet "short", url present but empty. -/
def recB : SumRecord := ⟨some "B".data, some "short".data, some []⟩

/-! ## Claims -/

/-- Claim C1 (evaluation at the failing input): when the provider iterator
delivers one record and then raises, `search` returns that one (non-empty)
result, emits zero `search_failed` events, and logs `search_completed`
with `success: True` — the inner catch in `_execute_search` swallows the
provider error before the `search_failed` branch of `search` can see it. -/
theorem search_provider_error_swallowed :
    (search "q".data Option.none failingProvider).1.length = 1 ∧
    ((search "q".data Option.none failingProvider).2.filter isFailureEvent).length
      = 0 ∧
    (search "q".data Option.none failingProvider).2
      = [ ⟨"SearchAgent".data, "search_started".data, LogData.searchStarted "q".data⟩,
          ⟨"SearchAgent".data, "search_completed".data,
            LogData.searchCompleted "q".data 1 true⟩ ] := by
  decide

/-- Claim C2: for every input to summarize, at most 10 key findings and at
most 15 sources come back, and `source_count` equals the total number of
records across all input batches, not the capped slice size. -/
theorem summary_caps_and_total_count (batches : List (List SumRecord)) :
    (synthesize_information batches).key_findings.length ≤ 10 ∧
    (synthesize_information batches).sources.length ≤ 15 ∧
    (synthesize_information batches).source_count
      = (batches.map List.length).sum := by
  refine ⟨?_, ?_, ?_⟩
  · rw [synthesize_key_findings_eq batches, List.length_map, List.length_take]
    omega
  · have := List.length_take_le 15
      (((batches.flatten.take 10).filter urlTruthy).map mkSourceRef)
    simp only [synthesize_information, synthLoop_snd]
    omega
  · simp [synthesize_information, List.length_flatten]

/-- Claim C3 fails as stated on the code: with `max_results = 3` and a
provider whose iterator yields 7 records, `search` does not return 3
results. -/
theorem over_yield_limit_cex :
    ¬ ((search "q".data (some 3) overYieldingProvider).1.length = 3) := by
  decide

/-- Claim C3 (amended): `search` returns one ranked result per record the
provider iterator actually yields — the limit is only forwarded to the
provider, so with `max_results = 3` and a provider yielding 7 records the
call returns 7 results with ranks 1..7, not 3. -/
theorem over_yield_passthrough :
    (search "q".data (some 3) overYieldingProvider).1.length = 7 ∧
    ((search "q".data (some 3) overYieldingProvider).1.map SearchResult.rank)
      = [1, 2, 3, 4, 5, 6, 7] := by
  decide

/-- Claim C4 fails as stated on the code: a caller-supplied `0` is falsy
in Python, so `max_results or self.max_results` replaces it with the
default rather than passing it through. -/
theorem zero_max_results_cex :
    ¬ (effectiveMaxResults (some 0) searchAgentDefaultMax = 0) := by
  decide

/-- Claim C4 (amended): the default applies when the caller omits the
argument or passes `0` (falsy); every non-zero value, negative values
included, is passed through unchanged. -/
theorem max_results_default_rule (m : Int) (hm : m ≠ 0) :
    effectiveMaxResults (some m) searchAgentDefaultMax = m ∧
    effectiveMaxResults Option.none searchAgentDefaultMax = searchAgentDefaultMax ∧
    effectiveMaxResults (some 0) searchAgentDefaultMax = searchAgentDefaultMax := by
  refine ⟨?_, rfl, rfl⟩
  simp [effectiveMaxResults, hm]

/-- Witness for the amended C4 at `m = -2`. -/
theorem max_results_default_rule_witness :
    effectiveMaxResults (some (-2)) searchAgentDefaultMax = -2 ∧
    effectiveMaxResults Option.none searchAgentDefaultMax = searchAgentDefaultMax ∧
    effectiveMaxResults (some 0) searchAgentDefaultMax = searchAgentDefaultMax :=
  max_results_default_rule (-2) (by decide)

/-- Claim C5: for every query, caller limit and provider, the rank fields
of the returned result list are exactly `1, 2, ..., n` in response
order — strictly increasing and gap-free. -/
theorem search_ranks_gap_free (q : List Char) (mr : Option Int) (p : Provider) :
    ((search q mr p).1.map SearchResult.rank)
      = List.range' 1 (search q mr p).1.length := by
  simp [search, execute_search, rankResults_map_rank, rankResults_length]

set_option maxRecDepth 10000 in
/-- Claim C6: on `[[recA, recB]]` (A: 300-char snippet, url "u1"; B:
snippet "short", empty url) the summary counts 2 sources, truncates A's
snippet to its first 200 characters with no ellipsis, keeps B's snippet
whole, and lists only A as a source because B's url is empty. -/
theorem scenario_truncation_and_source_filter :
    (synthesize_information [[recA, recB]]).source_count = 2 ∧
    ((synthesize_information [[recA, recB]]).key_findings.map Finding.point)
      = [List.replicate 200 'x', "short".data] ∧
    (synthesize_information [[recA, recB]]).sources
      = [⟨"A".data, "u1".data⟩] := by
  decide

/-- Claim C7: `sources` is built from the same first-10 slice of the
flattened input as `key_findings`, so its length is bounded by the number
of findings and hence by 10 — the nominal 15 cap is never binding. -/
theorem sources_built_from_findings_slice (batches : List (List SumRecord)) :
    (synthesize_information batches).sources
        = ((batches.flatten.take 10).filter urlTruthy).map mkSourceRef ∧
    (synthesize_information batches).sources.length
        ≤ (synthesize_information batches).key_findings.length ∧
    (synthesize_information batches).key_findings.length ≤ 10 := by
  refine ⟨synthesize_sources_eq batches, ?_, ?_⟩
  · rw [synthesize_sources_eq batches, synthesize_key_findings_eq batches,
      List.length_map, List.length_map]
    exact List.length_filter_le _ _
  · rw [synthesize_key_findings_eq batches, List.length_map, List.length_take]
    omega

/-- Claim C8: summarize is deterministic — structurally equal inputs give
structurally equal summaries (the embedding is a pure function of its
input; the code reads no randomness and no mutable shared state). -/
theorem summarize_deterministic (b₁ b₂ : List (List SumRecord)) (h : b₁ = b₂) :
    summarize b₁ = summarize b₂ := by
  rw [h]

/-- Witness for C8 at a concrete input. -/
theorem summarize_deterministic_witness :
    summarize [[recB]] = summarize [[recB]] :=
  summarize_deterministic [[recB]] [[recB]] rfl

/-- Claim C9: `key_findings` is exactly `mkFinding` applied elementwise to
the first 10 records of the flattened input (batch order preserved), so
its length is `min 10 (total flattened length)` and empty input yields
zero findings. -/
theorem key_findings_from_first_ten (batches : List (List SumRecord)) :
    (synthesize_information batches).key_findings
        = (batches.flatten.take 10).map mkFinding ∧
    (synthesize_information batches).key_findings.length
        = min 10 (batches.map List.length).sum := by
  refine ⟨synthesize_key_findings_eq batches, ?_⟩
  rw [synthesize_key_findings_eq batches, List.length_map, List.length_take,
    List.length_flatten]

/-- Claim C10: the placeholders "No title" / "No description" and the
empty-url default are substituted only when the corresponding key is
absent from the provider record; a key present with an empty or null
value passes through unchanged. -/
theorem placeholders_only_when_key_absent (idx : Nat) (r : ProviderRecord) :
    (r.title = Option.none →
      (mkSearchResult idx r).title = PyVal.str "No title".data) ∧
    (∀ v, r.title = some v → (mkSearchResult idx r).title = v) ∧
    (r.body = Option.none →
      (mkSearchResult idx r).snippet = PyVal.str "No description".data) ∧
    (∀ v, r.body = some v → (mkSearchResult idx r).snippet = v) ∧
    (r.href = Option.none → (mkSearchResult idx r).url = PyVal.str []) ∧
    (∀ v, r.href = some v → (mkSearchResult idx r).url = v) := by
  refine ⟨?_, ?_, ?_, ?_, ?_, ?_⟩ <;>
    first
      | (intro h; simp [mkSearchResult, dictGet, h])
      | (intro v h; simp [mkSearchResult, dictGet, h])

/-- Witness for C10: an all-absent record gets the placeholders; a record
whose title is the empty string and whose body is null keeps those values. -/
theorem placeholders_only_when_key_absent_witness :
    (mkSearchResult 0 ⟨Option.none, Option.none, Option.none⟩).title
        = PyVal.str "No title".data ∧
    (mkSearchResult 0
        ⟨some (PyVal.str []), some PyVal.null, some (PyVal.str [])⟩).title
        = PyVal.str [] ∧
    (mkSearchResult 0
        ⟨some (PyVal.str []), some PyVal.null, some (PyVal.str [])⟩).snippet
        = PyVal.null :=
  ⟨(placeholders_only_when_key_absent 0 ⟨Option.none, Option.none, Option.none⟩).1 rfl,
   (placeholders_only_when_key_absent 0
      ⟨some (PyVal.str []), some PyVal.null, some (PyVal.str [])⟩).2.1
      (PyVal.str []) rfl,
   (placeholders_only_when_key_absent 0
      ⟨some (PyVal.str []), some PyVal.null, some (PyVal.str [])⟩).2.2.2.1
      PyVal.null rfl⟩
